import Mathlib

/-!
Shallow embedding of the `rusteamid-cli` SteamID conversion tool
(`src/main.rs`).  Machine integers (`u64`, `u32`, `u8`) are modelled as
`Nat` with explicit masks / `% 2 ^ 64` wherever the Rust code can wrap;
Rust strings are `List Char`; fallible operations (including `unwrap`
panics) are modelled with `Option` / `Except`, where `none` marks a panic.
-/

namespace Rusteamid

/-- ASCII decimal digit test, the character class accepted by Rust's
`u64::from_str` and modelling the `\d` class of the two SteamID regexes
on the numerals the program can actually parse. -/
def isAsciiDigit (c : Char) : Bool := 48 ≤ c.toNat && c.toNat ≤ 57

/-- Value of a digit string read left to right, as `u64::from_str`
accumulates it. -/
def digitsToNat (s : List Char) : Nat :=
  s.foldl (fun acc c => acc * 10 + (c.toNat - 48)) 0

/-- Rust `str::parse::<u64>`: an optional leading `+`, then one or more
ASCII digits, failing (`none`) on an empty digit body, on a non-digit
character, or on overflow past `2 ^ 64 - 1`. -/
def parse_u64 (s : List Char) : Option Nat :=
  let body := match s with
    | c :: rest => if c = '+' then rest else c :: rest
    | [] => []
  if body ≠ [] ∧ body.all isAsciiDigit = true ∧ digitsToNat body < 2 ^ 64 then
    some (digitsToNat body)
  else none

/-- The regex `^STEAM_([0-5]):([01]):(\d+$)` (`REGEX_STEAMID2`): on a
match, the three capture groups are the universe digit, the auth bit
and the account-number digits. -/
def matchSteamID2 (s : List Char) : Option (Char × Char × List Char) :=
  match s with
  | c1 :: c2 :: c3 :: c4 :: c5 :: c6 :: u :: c7 :: a :: c8 :: rest =>
    if c1 = 'S' ∧ c2 = 'T' ∧ c3 = 'E' ∧ c4 = 'A' ∧ c5 = 'M' ∧ c6 = '_' ∧
       c7 = ':' ∧ c8 = ':' ∧ 48 ≤ u.toNat ∧ u.toNat ≤ 53 ∧
       (a = '0' ∨ a = '1') ∧ rest ≠ [] ∧ rest.all isAsciiDigit = true then
      some (u, a, rest)
    else none
  | _ => none

/-- The regex `^\[(.):([01]):(\d+)\]$` (`REGEX_STEAMID3`): on a match,
the three capture groups are the account-type character (any single
character except newline), the universe bit and the account-id digits. -/
def matchSteamID3 (s : List Char) : Option (Char × Char × List Char) :=
  match s with
  | b1 :: c :: b2 :: a :: b3 :: rest =>
    if b1 = '[' ∧ c ≠ '\n' ∧ b2 = ':' ∧ (a = '0' ∨ a = '1') ∧ b3 = ':' ∧
       rest.getLast? = some ']' ∧ rest.dropLast ≠ [] ∧
       rest.dropLast.all isAsciiDigit = true then
      some (c, a, rest.dropLast)
    else none
  | _ => none

/-- The `SteamIDAccountType` enum of `main.rs`. -/
inductive SteamIDAccountType where
  | Invalid
  | Individual
  | Multiseat
  | GameServer
  | AnonGameServer
  | Pending
  | ContentServer
  | Clan
  | Chat
  | ConsoleUser
  | AnonUser
deriving DecidableEq

/-- `SteamIDAccountType::to_int` (numeric code of each enum tag). -/
def SteamIDAccountType.to_int : SteamIDAccountType → Nat
  | .Invalid => 0
  | .Individual => 1
  | .Multiseat => 2
  | .GameServer => 3
  | .AnonGameServer => 4
  | .Pending => 5
  | .ContentServer => 6
  | .Clan => 7
  | .Chat => 8
  | .ConsoleUser => 9
  | .AnonUser => 10

/-- `SteamIDAccountType::from_char`: ID3 display character back to enum
tag, defaulting to `Invalid` on anything unrecognized. -/
def SteamIDAccountType.from_char (account_type : Char) : SteamIDAccountType :=
  if account_type = 'I' then .Invalid
  else if account_type = 'U' then .Individual
  else if account_type = 'M' then .Multiseat
  else if account_type = 'G' then .GameServer
  else if account_type = 'A' then .AnonGameServer
  else if account_type = 'P' then .Pending
  else if account_type = 'C' then .ContentServer
  else if account_type = 'g' then .Clan
  else if account_type = 'c' then .Chat
  else if account_type = 'T' then .Chat
  else if account_type = 'L' then .Chat
  else if account_type = 'a' then .AnonUser
  else .Invalid

/-- The free function `account_type_to_char`: numeric account type (and
the instance field, for Chat) to the ID3 display character.  For Chat
(8) the selector is `instance.unwrap_or(0) >> 12 & 255`. -/
def account_type_to_char (account_type : Nat) (inst : Option Nat) : Char :=
  match account_type with
  | 0 => 'I'
  | 1 => 'U'
  | 2 => 'M'
  | 3 => 'G'
  | 4 => 'A'
  | 5 => 'P'
  | 6 => 'C'
  | 7 => 'g'
  | 8 =>
    match inst.getD 0 >>> 12 &&& 255 with
    | 1 => 'T'
    | 2 => 'L'
    | 4 => 'c'
    | _ => 'c'
  | 10 => 'a'
  | _ => 'I'

/-- The `SteamIDFormat` enum of `main.rs`. -/
inductive SteamIDFormat where
  | SteamID64
  | SteamID2
  | SteamID3
deriving DecidableEq

/-- `string_to_steamid_type`: classify an input string, trying the full
`u64` parse first, then the ID2 regex, then the ID3 regex. -/
def string_to_steamid_type (steamid : List Char) : Except String SteamIDFormat :=
  if (parse_u64 steamid).isSome then .ok .SteamID64
  else if (matchSteamID2 steamid).isSome then .ok .SteamID2
  else if (matchSteamID3 steamid).isSome then .ok .SteamID3
  else .error "Unable to parse to any SteamID Format."

/-- `steamid2_to_steamid64`.  The Rust function calls
`captures(..).unwrap()` and `parse::<u64>().unwrap()` on the auth and
account-number groups; those panics are modelled as `none`.  The
universe group uses `unwrap_or(1)`.  `account_id << 1` is a wrapping
`u64` shift, hence the `% 2 ^ 64`. -/
def steamid2_to_steamid64 (steamid2 : List Char) : Option Nat :=
  match matchSteamID2 steamid2 with
  | none => none
  | some (ug, ag, ng) =>
    let univ := (parse_u64 [ug]).getD 1
    match parse_u64 [ag], parse_u64 ng with
    | some auth_server, some account_id =>
      some (univ <<< 56 ||| auth_server ||| (account_id <<< 1) % 2 ^ 64 |||
            76561197960265728)
    | _, _ => none

/-- `steamid3_to_steamid64`.  The account-type capture is a single
character (the regex `.`), so its `parse::<char>().unwrap_or('I')`
always yields the captured character; the universe group uses
`unwrap_or(1)`; the account-id group's `parse::<u64>().unwrap()` panic
is modelled as `none`. -/
def steamid3_to_steamid64 (steamid3 : List Char) : Option Nat :=
  match matchSteamID3 steamid3 with
  | none => none
  | some (cg, ug, ng) =>
    let account_type := (SteamIDAccountType.from_char cg).to_int
    let univ := (parse_u64 [ug]).getD 1
    match parse_u64 ng with
    | none => none
    | some account_id =>
      some (account_type <<< 52 ||| univ <<< 56 ||| account_id)

/-- `string_to_steamid64`: detector plus dispatch; the outer `none`
marks a panic inside the selected conversion, `Except.error` the
detector's failure. -/
def string_to_steamid64 (input : List Char) : Option (Except String Nat) :=
  match string_to_steamid_type input with
  | .ok .SteamID64 => (parse_u64 input).map .ok
  | .ok .SteamID2 => (steamid2_to_steamid64 input).map .ok
  | .ok .SteamID3 => (steamid3_to_steamid64 input).map .ok
  | .error e => some (.error e)

/-- `u32::try_from(..).unwrap_or(1)` on a `u64` value. -/
def u32_try_from_or1 (v : Nat) : Nat := if v < 2 ^ 32 then v else 1

/-- `u8::try_from(..).unwrap_or(1)` on a `u64` value. -/
def u8_try_from_or1 (v : Nat) : Nat := if v < 2 ^ 8 then v else 1

/-- The `SteamID` struct: the four decomposed fields. -/
structure SteamID where
  account_id : Nat
  account_instance : Nat
  account_type : Nat
  account_universe : Nat
deriving DecidableEq

/-- `SteamID::set_steamid64`: decompose a packed 64-bit value into the
four fields (the Rust method overwrites every field of `self`, so it is
a pure constructor here).  Note the universe mask is `15`, not `255`. -/
def SteamID.set_steamid64 (steamid_64 : Nat) : SteamID :=
  { account_id := u32_try_from_or1 (steamid_64 &&& 4294967295)
    account_instance := u32_try_from_or1 (steamid_64 >>> 32 &&& 1048575)
    account_type := u8_try_from_or1 (steamid_64 >>> 52 &&& 15)
    account_universe := u8_try_from_or1 (steamid_64 >>> 56 &&& 15) }

/-- `SteamID::get_steamid64`: OR the four fields back into their packed
offsets. -/
def SteamID.get_steamid64 (s : SteamID) : Nat :=
  s.account_id ||| s.account_instance <<< 32 ||| s.account_type <<< 52 |||
    s.account_universe <<< 56

/-- `SteamID::get_steamid3`: `"[{}:{}:{}]"` with the type character from
`account_type_to_char`, the universe and the account id. -/
def SteamID.get_steamid3 (s : SteamID) : String :=
  let type_char : Char := account_type_to_char s.account_type (some s.account_instance)
  "[" ++ String.singleton type_char ++ ":" ++ toString s.account_universe ++
    ":" ++ toString s.account_id ++ "]"

/-! ### Helper lemmas about the packed-field codec -/

/-- Every mask-and-shift extraction in `set_steamid64` fits its target
width, so the `unwrap_or(1)` clamps never fire and the constructor is
the plain decomposition. -/
theorem set_steamid64_eq (x : Nat) :
    SteamID.set_steamid64 x =
      ⟨x &&& 4294967295, x >>> 32 &&& 1048575, x >>> 52 &&& 15, x >>> 56 &&& 15⟩ := by
  have h1 : x &&& 4294967295 < 2 ^ 32 := Nat.and_lt_two_pow x (by norm_num)
  have h2 : x >>> 32 &&& 1048575 < 2 ^ 32 := Nat.and_lt_two_pow _ (by norm_num)
  have h3 : x >>> 52 &&& 15 < 2 ^ 8 := Nat.and_lt_two_pow _ (by norm_num)
  have h4 : x >>> 56 &&& 15 < 2 ^ 8 := Nat.and_lt_two_pow _ (by norm_num)
  simp only [SteamID.set_steamid64, u32_try_from_or1, u8_try_from_or1,
    if_pos h1, if_pos h2, if_pos h3, if_pos h4]

/-- Decoding a 64-bit value and re-encoding keeps exactly the low 60
bits: the universe mask `15` drops bits 60–63. -/
theorem get_set_eq_mod (x : Nat) :
    (SteamID.set_steamid64 x).get_steamid64 = x % 2 ^ 60 := by
  rw [set_steamid64_eq]
  show (x &&& 4294967295) ||| (x >>> 32 &&& 1048575) <<< 32 |||
      (x >>> 52 &&& 15) <<< 52 ||| (x >>> 56 &&& 15) <<< 56 = x % 2 ^ 60
  have h32 : (4294967295 : Nat) = 2 ^ 32 - 1 := by norm_num
  have h20 : (1048575 : Nat) = 2 ^ 20 - 1 := by norm_num
  have h4 : (15 : Nat) = 2 ^ 4 - 1 := by norm_num
  apply Nat.eq_of_testBit_eq
  intro i
  simp only [h32, h20, h4, Nat.testBit_or, Nat.testBit_and, Nat.testBit_shiftLeft,
    Nat.testBit_shiftRight, Nat.testBit_mod_two_pow, Nat.testBit_two_pow_sub_one]
  rcases Nat.lt_or_ge i 32 with hr | hr
  · simp [hr, decide_eq_false (by omega : ¬ 32 ≤ i), decide_eq_false (by omega : ¬ 52 ≤ i),
      decide_eq_false (by omega : ¬ 56 ≤ i), (by omega : i < 60)]
  rcases Nat.lt_or_ge i 52 with hr2 | hr2
  · simp [decide_eq_false (by omega : ¬ i < 32), hr, (by omega : i - 32 < 20),
      (by omega : 32 + (i - 32) = i), decide_eq_false (by omega : ¬ 52 ≤ i),
      decide_eq_false (by omega : ¬ 56 ≤ i), (by omega : i < 60)]
  rcases Nat.lt_or_ge i 56 with hr3 | hr3
  · simp [decide_eq_false (by omega : ¬ i < 32), decide_eq_false (by omega : ¬ i - 32 < 20),
      hr2, (by omega : i - 52 < 4), (by omega : 52 + (i - 52) = i),
      decide_eq_false (by omega : ¬ 56 ≤ i), (by omega : i < 60)]
  rcases Nat.lt_or_ge i 60 with hr4 | hr4
  · simp [decide_eq_false (by omega : ¬ i < 32), decide_eq_false (by omega : ¬ i - 32 < 20),
      decide_eq_false (by omega : ¬ i - 52 < 4), hr3, (by omega : i - 56 < 4),
      (by omega : 56 + (i - 56) = i), (by omega : i < 60)]
  · simp [decide_eq_false (by omega : ¬ i < 32), decide_eq_false (by omega : ¬ i - 32 < 20),
      decide_eq_false (by omega : ¬ i - 52 < 4), decide_eq_false (by omega : ¬ i - 56 < 4),
      decide_eq_false (by omega : ¬ i < 60)]

/-! ### Claims about the packed 64-bit codec -/

/-- Claim C9: `set_steamid64` is total on `u64` inputs — every masked
field extraction fits its target integer width, so the `unwrap_or(1)`
clamp branch is unreachable and the stored fields always equal the
direct mask-and-shift extractions. -/
theorem c9_set_steamid64_total (x : Nat) (hx : x < 2 ^ 64) :
    x &&& 4294967295 < 2 ^ 32 ∧ x >>> 32 &&& 1048575 < 2 ^ 32 ∧
    x >>> 52 &&& 15 < 2 ^ 8 ∧ x >>> 56 &&& 15 < 2 ^ 8 ∧
    SteamID.set_steamid64 x =
      ⟨x &&& 4294967295, x >>> 32 &&& 1048575, x >>> 52 &&& 15, x >>> 56 &&& 15⟩ :=
  ⟨Nat.and_lt_two_pow x (by norm_num), Nat.and_lt_two_pow _ (by norm_num),
   Nat.and_lt_two_pow _ (by norm_num), Nat.and_lt_two_pow _ (by norm_num),
   set_steamid64_eq x⟩

/-- Witness for C9 at the concrete input `x = 7`. -/
theorem c9_set_steamid64_total_witness :
    (7 : Nat) &&& 4294967295 < 2 ^ 32 ∧ (7 : Nat) >>> 32 &&& 1048575 < 2 ^ 32 ∧
    (7 : Nat) >>> 52 &&& 15 < 2 ^ 8 ∧ (7 : Nat) >>> 56 &&& 15 < 2 ^ 8 ∧
    SteamID.set_steamid64 7 =
      ⟨7 &&& 4294967295, 7 >>> 32 &&& 1048575, 7 >>> 52 &&& 15, 7 >>> 56 &&& 15⟩ :=
  c9_set_steamid64_total 7 (by norm_num)

/-- Counterexample to claim C2 as stated: for `x = 255 <<< 56` the code
stores universe `15` (mask `15`), not the full next 8 bits `255`. -/
theorem c2_claim_counterexample :
    (255 <<< 56 : Nat) < 2 ^ 64 ∧
    (SteamID.set_steamid64 (255 <<< 56)).account_universe ≠
      (255 <<< 56 : Nat) >>> 56 &&& 255 := by
  decide

/-- Claim C2 (amended): `set_steamid64` sets `account_id` to the low 32
bits, `instance` to the next 20 bits, `account_type` to the next 4 bits,
and `universe` to only the next 4 bits, `(x >>> 56) &&& 15` — not the
full next 8 bits. -/
theorem c2_decode_fields (x : Nat) (hx : x < 2 ^ 64) :
    (SteamID.set_steamid64 x).account_id = x &&& 4294967295 ∧
    (SteamID.set_steamid64 x).account_instance = x >>> 32 &&& 1048575 ∧
    (SteamID.set_steamid64 x).account_type = x >>> 52 &&& 15 ∧
    (SteamID.set_steamid64 x).account_universe = x >>> 56 &&& 15 := by
  rw [set_steamid64_eq]
  exact ⟨rfl, rfl, rfl, rfl⟩

/-- Witness for the amended C2 at the concrete input `x = 76561197960265730`. -/
theorem c2_decode_fields_witness :
    (SteamID.set_steamid64 76561197960265730).account_id = 76561197960265730 &&& 4294967295 ∧
    (SteamID.set_steamid64 76561197960265730).account_instance =
      76561197960265730 >>> 32 &&& 1048575 ∧
    (SteamID.set_steamid64 76561197960265730).account_type = 76561197960265730 >>> 52 &&& 15 ∧
    (SteamID.set_steamid64 76561197960265730).account_universe =
      76561197960265730 >>> 56 &&& 15 :=
  c2_decode_fields 76561197960265730 (by norm_num)

/-- Claim C10: decode/encode round-trip equals `x &&& 0x0FFFFFFFFFFFFFFF`
(bits 0–59 preserved, bits 60–63 cleared), and reproduces `x` exactly
iff the top four bits of `x` are zero. -/
theorem c10_roundtrip_low60 (x : Nat) (hx : x < 2 ^ 64) :
    (SteamID.set_steamid64 x).get_steamid64 = x &&& 1152921504606846975 ∧
    ((SteamID.set_steamid64 x).get_steamid64 = x ↔ x >>> 60 = 0) := by
  have hmask : x &&& 1152921504606846975 = x % 2 ^ 60 := by
    have h : (1152921504606846975 : Nat) = 2 ^ 60 - 1 := by norm_num
    rw [h, Nat.and_pow_two_sub_one_eq_mod]
  refine ⟨by rw [get_set_eq_mod, hmask], ?_⟩
  rw [get_set_eq_mod]
  constructor
  · intro h
    have hlt : x % 2 ^ 60 < 2 ^ 60 := Nat.mod_lt _ (by norm_num)
    rw [h] at hlt
    rw [Nat.shiftRight_eq_div_pow]
    exact Nat.div_eq_of_lt hlt
  · intro h
    rw [Nat.shiftRight_eq_div_pow] at h
    have hd := Nat.div_add_mod x (2 ^ 60)
    rw [h, Nat.mul_zero, Nat.zero_add] at hd
    exact hd

/-- Witness for C10 at the concrete input `x = 76561197960265730`. -/
theorem c10_roundtrip_low60_witness :
    (SteamID.set_steamid64 76561197960265730).get_steamid64 =
      76561197960265730 &&& 1152921504606846975 ∧
    ((SteamID.set_steamid64 76561197960265730).get_steamid64 = 76561197960265730 ↔
      (76561197960265730 : Nat) >>> 60 = 0) :=
  c10_roundtrip_low60 76561197960265730 (by norm_num)

/-- Counterexample to claim C1 as stated: `x = 16 <<< 56` has all four
fields within the widths the claim declares (universe `16` fits 8 bits)
and nonzero universe, yet the round-trip yields `0`, not `x`. -/
theorem c1_claim_counterexample :
    (16 <<< 56 : Nat) < 2 ^ 64 ∧ (16 <<< 56 : Nat) >>> 56 < 2 ^ 8 ∧
    (16 <<< 56 : Nat) >>> 56 ≠ 0 ∧
    (SteamID.set_steamid64 (16 <<< 56)).get_steamid64 ≠ 16 <<< 56 := by
  decide

/-- Claim C1 (amended): the decode/encode round-trip reproduces `x`
exactly for any packed value whose universe field fits 4 bits (not 8)
— equivalently `x >>> 56 < 16` — and is nonzero; the other three fields
always fit their declared widths in a 64-bit value. -/
theorem c1_roundtrip_amended (x : Nat) (hx : x < 2 ^ 64) (hfit : x >>> 56 < 16)
    (hu : x >>> 56 ≠ 0) :
    (SteamID.set_steamid64 x).get_steamid64 = x := by
  rw [get_set_eq_mod]
  apply Nat.mod_eq_of_lt
  rw [Nat.shiftRight_eq_div_pow] at hfit
  have h1 : x < 16 * 2 ^ 56 := (Nat.div_lt_iff_lt_mul (by positivity)).1 hfit
  have h2 : (16 : Nat) * 2 ^ 56 = 2 ^ 60 := by norm_num
  omega

/-- Witness for the amended C1 at the concrete input `x = 1 <<< 56`
(universe 1, all other fields 0). -/
theorem c1_roundtrip_amended_witness :
    (SteamID.set_steamid64 (1 <<< 56)).get_steamid64 = 1 <<< 56 :=
  c1_roundtrip_amended (1 <<< 56) (by decide) (by decide) (by decide)

/-! ### Claims about the ID3 display-character tables -/

/-- Claim C7: for `account_type = 8` (Chat) the ID3 display character
is a function of bits 12–19 of the instance field: `1 → 'T'`, `2 → 'L'`,
anything else (including `0` and `4`) → `'c'`; `get_steamid3` renders
with exactly that character. -/
theorem c7_chat_char (st : SteamID) (h8 : st.account_type = 8) :
    account_type_to_char st.account_type (some st.account_instance) =
      (if st.account_instance >>> 12 &&& 255 = 1 then 'T'
       else if st.account_instance >>> 12 &&& 255 = 2 then 'L' else 'c') ∧
    st.get_steamid3 =
      "[" ++ String.singleton
          (if st.account_instance >>> 12 &&& 255 = 1 then 'T'
           else if st.account_instance >>> 12 &&& 255 = 2 then 'L' else 'c') ++ ":" ++
        toString st.account_universe ++ ":" ++ toString st.account_id ++ "]" := by
  have hchar : account_type_to_char st.account_type (some st.account_instance) =
      (if st.account_instance >>> 12 &&& 255 = 1 then 'T'
       else if st.account_instance >>> 12 &&& 255 = 2 then 'L' else 'c') := by
    rw [h8]
    simp only [account_type_to_char, Option.getD]
    generalize st.account_instance >>> 12 &&& 255 = k
    rcases k with _ | _ | _ | _ | _ | k
    · rfl
    · rfl
    · rfl
    · rfl
    · rfl
    · rw [if_neg (by omega), if_neg (by omega)]
      rfl
  refine ⟨hchar, ?_⟩
  simp only [SteamID.get_steamid3, hchar]

/-- Witness for C7 at the concrete Identifier
`⟨1, 8192, 8, 1⟩` (instance bits 12–19 equal to 2, so char 'L'). -/
theorem c7_chat_char_witness :
    account_type_to_char (SteamID.mk 1 8192 8 1).account_type
        (some (SteamID.mk 1 8192 8 1).account_instance) =
      (if (SteamID.mk 1 8192 8 1).account_instance >>> 12 &&& 255 = 1 then 'T'
       else if (SteamID.mk 1 8192 8 1).account_instance >>> 12 &&& 255 = 2 then 'L'
       else 'c') ∧
    (SteamID.mk 1 8192 8 1).get_steamid3 =
      "[" ++ String.singleton
          (if (SteamID.mk 1 8192 8 1).account_instance >>> 12 &&& 255 = 1 then 'T'
           else if (SteamID.mk 1 8192 8 1).account_instance >>> 12 &&& 255 = 2 then 'L'
           else 'c') ++ ":" ++
        toString (SteamID.mk 1 8192 8 1).account_universe ++ ":" ++
        toString (SteamID.mk 1 8192 8 1).account_id ++ "]" :=
  c7_chat_char (SteamID.mk 1 8192 8 1) rfl

/-- Claim C8: an Identifier with `account_type = 9` (ConsoleUser) renders
its ID3 display character as `'I'` — the same character as Invalid — and
mapping `'I'` back yields `Invalid` (numeric code 0), not `ConsoleUser`:
the two tables are deliberately not inverses here. -/
theorem c8_consoleuser_collapse (inst : Nat) :
    account_type_to_char 9 (some inst) = 'I' ∧
    account_type_to_char 0 (some inst) = 'I' ∧
    SteamIDAccountType.from_char 'I' = SteamIDAccountType.Invalid ∧
    (SteamIDAccountType.from_char 'I').to_int = 0 ∧
    SteamIDAccountType.Invalid ≠ SteamIDAccountType.ConsoleUser :=
  ⟨rfl, rfl, by decide, by decide, by decide⟩

/-! ### Claims about the format detector -/

/-- Counterexample to claim C3 as stated: `"18446744073709551616"`
(2^64) consists solely of base-10 digits, yet the detector reports the
unrecognized-format error because the `u64` parse overflows and neither
regex matches a bare numeral. -/
theorem c3_claim_counterexample :
    "18446744073709551616".toList.all isAsciiDigit = true ∧
    string_to_steamid_type "18446744073709551616".toList =
      Except.error "Unable to parse to any SteamID Format." :=
  ⟨by decide, rfl⟩

/-- Claim C3 (amended): every nonempty string of base-10 digits whose
numeric value fits in a `u64` is classified ID64 — never ID2, ID3 or
the unrecognized-format error. -/
theorem c3_digits_detect (s : List Char) (h1 : s ≠ [])
    (h2 : s.all isAsciiDigit = true) (h3 : digitsToNat s < 2 ^ 64) :
    string_to_steamid_type s = Except.ok SteamIDFormat.SteamID64 := by
  have hp : parse_u64 s = some (digitsToNat s) := by
    rcases s with _ | ⟨c, rest⟩
    · exact absurd rfl h1
    · have hc : isAsciiDigit c = true := by
        rw [List.all_cons, Bool.and_eq_true] at h2
        exact h2.1
      have hcne : c ≠ '+' := by
        intro he
        rw [he] at hc
        exact absurd hc (by decide)
      unfold parse_u64
      simp only [if_neg hcne]
      rw [if_pos ⟨by simp, h2, h3⟩]
  simp only [string_to_steamid_type, hp, Option.isSome_some, if_pos]

/-- Witness for the amended C3 at the concrete input `"7"`. -/
theorem c3_digits_detect_witness :
    string_to_steamid_type "7".toList = Except.ok SteamIDFormat.SteamID64 :=
  c3_digits_detect "7".toList (by decide) (by decide) (by decide)

/-- Claim C4 (the code, evaluated at the failing input): the string
`"STEAM_1:0:18446744073709551616"` matches the ID2 shape, so the
detector classifies it ID2, but the account-number capture overflows
`u64` and `steamid2_to_steamid64` hits `parse::<u64>().unwrap()` — a
panic (modelled `none`) that aborts the whole process rather than a
surfaced per-item failure. -/
theorem c4_overflow_panics :
    string_to_steamid_type "STEAM_1:0:18446744073709551616".toList =
      Except.ok SteamIDFormat.SteamID2 ∧
    steamid2_to_steamid64 "STEAM_1:0:18446744073709551616".toList = none ∧
    string_to_steamid64 "STEAM_1:0:18446744073709551616".toList = none :=
  ⟨rfl, rfl, rfl⟩

/-! ### Helper lemmas about the two regex parse paths -/

/-- Inverting an ID2 match: the captured universe character is a digit
`0`–`5`, the auth character is `'0'` or `'1'`, and the account-number
group is a nonempty digit string. -/
theorem matchSteamID2_inv {s : List Char} {u a : Char} {ds : List Char}
    (hm : matchSteamID2 s = some (u, a, ds)) :
    48 ≤ u.toNat ∧ u.toNat ≤ 53 ∧ (a = '0' ∨ a = '1') ∧ ds ≠ [] ∧
    ds.all isAsciiDigit = true := by
  unfold matchSteamID2 at hm
  split at hm
  · split at hm
    · rename_i hguard
      simp only [Option.some.injEq, Prod.mk.injEq] at hm
      obtain ⟨hu, ha, hds⟩ := hm
      subst hu
      subst ha
      subst hds
      exact ⟨hguard.2.2.2.2.2.2.2.2.1, hguard.2.2.2.2.2.2.2.2.2.1,
        hguard.2.2.2.2.2.2.2.2.2.2.1, hguard.2.2.2.2.2.2.2.2.2.2.2.1,
        hguard.2.2.2.2.2.2.2.2.2.2.2.2⟩
    · exact absurd hm (by simp)
  · exact absurd hm (by simp)

/-- Inverting an ID3 match: the captured universe character is `'0'` or
`'1'` and the account-id group is a nonempty digit string. -/
theorem matchSteamID3_inv {s : List Char} {c a : Char} {ds : List Char}
    (hm : matchSteamID3 s = some (c, a, ds)) :
    (a = '0' ∨ a = '1') ∧ ds ≠ [] ∧ ds.all isAsciiDigit = true := by
  unfold matchSteamID3 at hm
  split at hm
  · split at hm
    · rename_i hguard
      simp only [Option.some.injEq, Prod.mk.injEq] at hm
      obtain ⟨hc, ha, hds⟩ := hm
      subst hc
      subst ha
      subst hds
      exact ⟨hguard.2.2.2.1, hguard.2.2.2.2.2.2.1, hguard.2.2.2.2.2.2.2⟩
    · exact absurd hm (by simp)
  · exact absurd hm (by simp)

/-- `parse::<u64>` on a single ASCII-digit capture always succeeds with
the digit's value. -/
theorem parse_u64_single_digit {c : Char} (h : isAsciiDigit c = true) :
    parse_u64 [c] = some (c.toNat - 48) := by
  have hb : 48 ≤ c.toNat ∧ c.toNat ≤ 57 := by
    rw [isAsciiDigit, Bool.and_eq_true, decide_eq_true_eq, decide_eq_true_eq] at h
    exact h
  have hcne : c ≠ '+' := by
    intro he
    rw [he] at h
    exact absurd h (by decide)
  unfold parse_u64
  simp only [if_neg hcne]
  rw [if_pos ⟨by simp, by simp [h], by simp [digitsToNat]; omega⟩]
  simp [digitsToNat]

/-- Bits 52–55 of an ID2-packed value: the base constant contributes the
Individual bit and, when the doubled account number stays below bit 52,
nothing else lands in the account-type field. -/
theorem id2_type_field (U B n : Nat) (hU : U ≤ 5) (hB : B ≤ 1) (hn : n < 2 ^ 51) :
    (U <<< 56 ||| B ||| (n <<< 1) % 2 ^ 64 ||| 76561197960265728) >>> 52 &&& 15 = 1 := by
  have h15 : (15 : Nat) = 2 ^ 4 - 1 := by norm_num
  have hA : ∀ j, j < 56 → (U <<< 56).testBit j = false := by
    intro j hj
    rw [Nat.testBit_shiftLeft]
    simp [decide_eq_false (by omega : ¬ 56 ≤ j)]
  have hBb : ∀ j, 1 ≤ j → B.testBit j = false := by
    intro j hj
    apply Nat.testBit_lt_two_pow
    calc B ≤ 1 := hB
      _ < 2 ^ 1 := by norm_num
      _ ≤ 2 ^ j := Nat.pow_le_pow_right (by norm_num) hj
  have hC : ∀ j, 52 ≤ j → ((n <<< 1) % 18446744073709551616).testBit j = false := by
    intro j hj
    rw [show (18446744073709551616 : Nat) = 2 ^ 64 from by norm_num]
    rcases Nat.lt_or_ge j 64 with h64 | h64
    · rw [Nat.testBit_mod_two_pow, Nat.testBit_shiftLeft]
      have hnb : n.testBit (j - 1) = false :=
        Nat.testBit_lt_two_pow
          (lt_of_lt_of_le hn (Nat.pow_le_pow_right (by norm_num) (by omega)))
      simp [hnb]
    · apply Nat.testBit_lt_two_pow
      exact lt_of_lt_of_le (Nat.mod_lt _ (by positivity))
        (Nat.pow_le_pow_right (by norm_num) h64)
  apply Nat.eq_of_testBit_eq
  intro i
  simp only [Nat.testBit_and, Nat.testBit_shiftRight, Nat.testBit_or, h15,
    Nat.testBit_two_pow_sub_one]
  rcases i with _ | _ | _ | _ | i
  · simp [hA 52 (by omega), hBb 52 (by omega), hC 52 (by omega)]
    decide
  · simp [hA 53 (by omega), hBb 53 (by omega), hC 53 (by omega)]
    decide
  · simp [hA 54 (by omega), hBb 54 (by omega), hC 54 (by omega)]
    decide
  · simp [hA 55 (by omega), hBb 55 (by omega), hC 55 (by omega)]
    decide
  · have hd : decide (i + 4 < 4) = false := decide_eq_false (by omega)
    have h1b : Nat.testBit 1 (i + 4) = false :=
      Nat.testBit_lt_two_pow (by
        calc (1 : Nat) < 2 ^ 1 := by norm_num
          _ ≤ 2 ^ (i + 4) := Nat.pow_le_pow_right (by norm_num) (by omega))
    simp [hd, h1b]

/-! ### Claims about the two string-to-ID64 parse paths -/

/-- Counterexample to the "account_type field is always 1" part of claim
C5 as stated: for the ID2 string with account number `2 ^ 52`, the
doubled account number overflows into the type bits and the packed
result's account_type field is `3`, not `1`. -/
theorem c5_claim_counterexample :
    (steamid2_to_steamid64 "STEAM_1:0:4503599627370496".toList).map
      (fun r => r >>> 52 &&& 15) = some 3 ∧ (3 : Nat) ≠ 1 := by
  refine ⟨rfl, by decide⟩

/-- Claim C5 (amended): for every ID2 match `STEAM_u:a:n` with `n`
parseable as `u64`, the result is exactly
`(u <<< 56) ||| a ||| ((n <<< 1) mod 2 ^ 64) ||| 76561197960265728`; the
account_type field of the result is 1 (Individual) whenever
`n < 2 ^ 51` (rather than for every `n`); and
`steamid2_to_steamid64 "STEAM_1:0:1" = 76561197960265730`. -/
theorem c5_id2_formula (s : List Char) (u a : Char) (ds : List Char) (n : Nat)
    (hm : matchSteamID2 s = some (u, a, ds)) (hn : parse_u64 ds = some n) :
    steamid2_to_steamid64 s =
      some ((u.toNat - 48) <<< 56 ||| (a.toNat - 48) ||| (n <<< 1) % 2 ^ 64 |||
        76561197960265728) ∧
    (n < 2 ^ 51 →
      ((u.toNat - 48) <<< 56 ||| (a.toNat - 48) ||| (n <<< 1) % 2 ^ 64 |||
        76561197960265728) >>> 52 &&& 15 = 1) ∧
    steamid2_to_steamid64 "STEAM_1:0:1".toList = some 76561197960265730 := by
  obtain ⟨hu1, hu2, ha, _, _⟩ := matchSteamID2_inv hm
  have hul : parse_u64 [u] = some (u.toNat - 48) :=
    parse_u64_single_digit (by simp [isAsciiDigit]; omega)
  have hal : parse_u64 [a] = some (a.toNat - 48) := by
    rcases ha with h | h <;> (subst h; decide)
  refine ⟨?_, fun hn51 =>
    id2_type_field (u.toNat - 48) (a.toNat - 48) n (by omega)
      (by rcases ha with h | h <;> (subst h; decide)) hn51, rfl⟩
  unfold steamid2_to_steamid64
  rw [hm]
  simp only [hul, hal, hn, Option.getD_some]

/-- Witness for the amended C5 at the concrete input `"STEAM_1:0:1"`. -/
theorem c5_id2_formula_witness :
    steamid2_to_steamid64 "STEAM_1:0:1".toList =
      some (('1'.toNat - 48) <<< 56 ||| ('0'.toNat - 48) ||| ((1 : Nat) <<< 1) % 2 ^ 64 |||
        76561197960265728) ∧
    ((1 : Nat) < 2 ^ 51 →
      (('1'.toNat - 48) <<< 56 ||| ('0'.toNat - 48) ||| ((1 : Nat) <<< 1) % 2 ^ 64 |||
        76561197960265728) >>> 52 &&& 15 = 1) ∧
    steamid2_to_steamid64 "STEAM_1:0:1".toList = some 76561197960265730 :=
  c5_id2_formula "STEAM_1:0:1".toList '1' '0' ['1'] 1 (by decide) (by decide)

/-- Claim C6: for every ID3 match `[c:u:n]` with `n` parseable as `u64`,
the result is exactly `(t <<< 52) ||| (u <<< 56) ||| n` with `t` the
numeric code of the account type mapped from `c`; no instance bits and
no auth-server bit are ORed in, and
`steamid3_to_steamid64 "[U:1:1]" = (1 <<< 52) ||| (1 <<< 56) ||| 1`. -/
theorem c6_id3_formula (s : List Char) (c u : Char) (ds : List Char) (n : Nat)
    (hm : matchSteamID3 s = some (c, u, ds)) (hn : parse_u64 ds = some n) :
    steamid3_to_steamid64 s =
      some ((SteamIDAccountType.from_char c).to_int <<< 52 |||
        (u.toNat - 48) <<< 56 ||| n) ∧
    steamid3_to_steamid64 "[U:1:1]".toList = some (1 <<< 52 ||| 1 <<< 56 ||| 1) := by
  obtain ⟨ha, _, _⟩ := matchSteamID3_inv hm
  have hul : parse_u64 [u] = some (u.toNat - 48) := by
    rcases ha with h | h <;> (subst h; decide)
  refine ⟨?_, by rfl⟩
  unfold steamid3_to_steamid64
  rw [hm]
  simp only [hul, hn, Option.getD_some]

/-- Witness for C6 at the concrete input `"[U:1:1]"`. -/
theorem c6_id3_formula_witness :
    steamid3_to_steamid64 "[U:1:1]".toList =
      some ((SteamIDAccountType.from_char 'U').to_int <<< 52 |||
        ('1'.toNat - 48) <<< 56 ||| 1) ∧
    steamid3_to_steamid64 "[U:1:1]".toList = some (1 <<< 52 ||| 1 <<< 56 ||| 1) :=
  c6_id3_formula "[U:1:1]".toList 'U' '1' ['1'] 1 (by decide) (by decide)

end Rusteamid
